import Mathlib

/-!
Verification of the Coding Platform code-execution and grading behaviour.

The repository sources under verification are the frontend TypeScript files:
App.tsx (request construction, run/submit handlers and their fallbacks) and
OutputConsole.tsx (per-test verdict rendering and status label).  The backend
Code Execution and Grading Harness is not part of the sources; where a claim
is decided by that component it is modelled from the specification, and each
such definition is marked `Modelled from the spec:` in its doc comment.
-/

namespace Frontend

/-- Shape of one test result as held in App.tsx state and consumed by
OutputConsole.tsx (the TypeScript `is_hidden` field is optional and defaults
to absent, i.e. false). -/
structure TestResult where
  passed : Bool
  input : String
  expectedOutput : String
  actualOutput : String
  executionTime : ℚ
  memoryUsage : ℚ
  is_hidden : Bool := false
deriving Repr, DecidableEq

/-- Overall metrics as held in App.tsx state; `status` is optional in the
OutputConsole props. -/
structure OverallMetrics where
  totalTests : ℕ
  passedTests : ℕ
  averageTime : ℚ
  averageMemory : ℚ
  status : Option String := none
deriving Repr, DecidableEq

/-- One problem example, per the Problem shape used by App.tsx. -/
structure ProblemExample where
  input : String
  output : String
deriving Repr, DecidableEq

/-- The fields of the current problem that the run/submit handlers read. -/
structure Problem where
  id : String
  examples : List ProblemExample
deriving Repr, DecidableEq

/-- JavaScript `x || d` on an optional string: the default is taken when the
value is absent or is the empty string (falsy). -/
def jsOrString (s : Option String) (dflt : String) : String :=
  match s with
  | some v => if v = "" then dflt else v
  | none => dflt

/-- JavaScript `x || d` on an optional number: the default is taken when the
value is absent or is 0 (falsy). -/
def jsOrNum (v : Option ℚ) (dflt : ℚ) : ℚ :=
  match v with
  | some x => if x = 0 then dflt else x
  | none => dflt

/-- An HTTP request as built by the frontend: target endpoint plus the JSON
body rendered as an ordered field list. -/
structure CodeRequest where
  endpoint : String
  body : List (String × String)
deriving Repr, DecidableEq

/-- The request built by handleRunCode in App.tsx: POST to /api/code/run with
body fields code, language, problem_id (the problem id defaults to "1" via
the JavaScript or-else when no problem is loaded). -/
def runCodeRequest (code lang : String) (currentProblem : Option Problem) : CodeRequest :=
  { endpoint := "http://localhost:8000/api/code/run"
    body := [("code", code), ("language", lang),
             ("problem_id", jsOrString (currentProblem.map Problem.id) "1")] }

/-- The request built by handleSubmitCode in App.tsx: POST to
/api/code/evaluate with the same three body fields. -/
def evaluateCodeRequest (code lang : String) (currentProblem : Option Problem) : CodeRequest :=
  { endpoint := "http://localhost:8000/api/code/evaluate"
    body := [("code", code), ("language", lang),
             ("problem_id", jsOrString (currentProblem.map Problem.id) "1")] }

/-- Backend response shape read by handleRunCode (absent `test_results` is
modelled as the empty list, matching the falsy check in the code). -/
structure RunResponse where
  test_results : List TestResult
  overall_metrics : Option OverallMetrics
  output : Option String
  execution_time : Option ℚ
  memory_usage : Option ℚ
deriving Repr, DecidableEq

/-- Outcome of the fetch in handleRunCode: failure covers both a thrown fetch
and a non-ok response (both reach the catch block). -/
inductive FetchOutcome where
  | failure : FetchOutcome
  | success : RunResponse → FetchOutcome
deriving DecidableEq

/-- The Math.random based values used by the legacy single-shot fallback
branch of handleRunCode, passed in as an oracle. -/
structure DemoRandom where
  passedFlag : Bool
  time : ℚ
  memory : ℚ
deriving Repr, DecidableEq

/-- The component state that handleRunCode updates. -/
structure AppState where
  testResults : List TestResult
  overallMetrics : OverallMetrics
deriving Repr, DecidableEq

/-- The client-side fallback metrics computed in handleRunCode when the
response carries test results but no overall_metrics: totals plus averages
over all returned results. -/
def fallbackMetrics (rs : List TestResult) : OverallMetrics :=
  { totalTests := rs.length
    passedTests := (rs.filter (fun r => r.passed)).length
    averageTime := (rs.map (fun r => r.executionTime)).sum / (rs.length : ℚ)
    averageMemory := (rs.map (fun r => r.memoryUsage)).sum / (rs.length : ℚ)
    status := none }

/-- State update performed by handleRunCode in App.tsx, as a function of the
fetch outcome, the current problem, the random oracle and the prior state.
The catch branch replaces the result list with a single synthetic failed
entry built from the first example when one exists, and otherwise leaves the
state alone; the success branch takes the returned results (with the metrics
or the client-side fallback), or the legacy single-shot branch. -/
def handleRunCode (outcome : FetchOutcome) (currentProblem : Option Problem)
    (rand : DemoRandom) (s : AppState) : AppState :=
  match outcome with
  | FetchOutcome.failure =>
      match currentProblem with
      | none => s
      | some p =>
          match p.examples with
          | [] => s
          | ex :: _ =>
              { s with testResults :=
                  [{ passed := false, input := ex.input, expectedOutput := ex.output,
                     actualOutput := "Error executing code",
                     executionTime := 0, memoryUsage := 0, is_hidden := false }] }
  | FetchOutcome.success data =>
      if data.test_results.isEmpty then
        match currentProblem with
        | none => s
        | some p =>
            match p.examples with
            | [] => s
            | ex :: _ =>
                { s with testResults :=
                    [{ passed := rand.passedFlag, input := ex.input,
                       expectedOutput := ex.output,
                       actualOutput := jsOrString data.output ex.output,
                       executionTime := jsOrNum data.execution_time rand.time,
                       memoryUsage := jsOrNum data.memory_usage rand.memory,
                       is_hidden := false }] }
      else
        { testResults := data.test_results
          overallMetrics := (data.overall_metrics).getD (fallbackMetrics data.test_results) }

/-- The summary status line rendered by OutputConsole.tsx: the metrics status
string if present and non-empty, else Accepted when all counted tests passed
and Wrong Answer otherwise. -/
def statusLabel (m : OverallMetrics) : String :=
  jsOrString m.status (if m.passedTests = m.totalTests then "Accepted" else "Wrong Answer")

/-- The per-test verdict chip rendered by OutputConsole.tsx. -/
def verdictLabel (r : TestResult) : String :=
  if r.passed then "Accepted" else "Wrong Answer"

/-- The OutputConsole.tsx condition under which the expected-output block is
replaced by the hidden notice. -/
def hidesExpectedOutput (r : TestResult) : Bool :=
  r.is_hidden && !r.passed

end Frontend

namespace Harness

/-- Modelled from the spec: the outcome kinds of section 4.3 and section 7;
the grading backend that produces them is not among the sources. -/
inductive Outcome where
  | CompileError : Outcome
  | TimeLimitExceeded : Outcome
  | MemoryLimitExceeded : Outcome
  | RuntimeError : Outcome
  | WrongAnswer : Outcome
  | Passed : Outcome
deriving Repr, DecidableEq

/-- Modelled from the spec: the precedence of section 4.3, encoded as a
numeric severity with CompileError highest and Passed lowest. -/
def Outcome.severity : Outcome → ℕ
  | Outcome.CompileError => 5
  | Outcome.TimeLimitExceeded => 4
  | Outcome.MemoryLimitExceeded => 3
  | Outcome.RuntimeError => 2
  | Outcome.WrongAnswer => 1
  | Outcome.Passed => 0

/-- Modelled from the spec: the status labels of section 3 attached to each
outcome kind. -/
def Outcome.label : Outcome → String
  | Outcome.CompileError => "Compile Error"
  | Outcome.TimeLimitExceeded => "Time Limit Exceeded"
  | Outcome.MemoryLimitExceeded => "Memory Limit Exceeded"
  | Outcome.RuntimeError => "Runtime Error"
  | Outcome.WrongAnswer => "Wrong Answer"
  | Outcome.Passed => "Accepted"

/-- Modelled from the spec: a test case of section 3 with its visibility
flag. -/
structure TestCase where
  input : String
  expected_output : String
  hidden : Bool
deriving Repr, DecidableEq

/-- Modelled from the spec: one per-test ExecutionResult of section 3. -/
structure ExecutionResult where
  passed : Bool
  input : String
  expected_output : String
  actual_output : String
  execution_time : ℚ
  memory_usage : ℚ
  outcome : Outcome
  is_hidden : Bool
deriving Repr, DecidableEq

/-- Modelled from the spec: the observable effect of one sandboxed execution
(section 4.2), the Runner itself being outside the sources. -/
structure RunOutput where
  stdout : String
  stderr : String
  exitCode : Int
  timedOut : Bool
  memExceeded : Bool
  wallTimeMs : ℚ
  peakMemoryKb : ℚ
deriving Repr, DecidableEq

/-- Modelled from the spec: output normalisation of section 4.3, trailing
whitespace trimmed per line and trailing blank lines collapsed. -/
def normalizeOutput (s : String) : String :=
  let lines := (s.splitOn "\n").map String.trimRight
  String.intercalate "\n" ((lines.reverse.dropWhile (fun l => l == "")).reverse)

/-- Modelled from the spec: outcome classification of section 4.3 with the
precedence TimeLimitExceeded, then MemoryLimitExceeded, then RuntimeError,
then textual comparison after normalisation. -/
def classify (tc : TestCase) (o : RunOutput) : Outcome :=
  if o.timedOut then Outcome.TimeLimitExceeded
  else if o.memExceeded then Outcome.MemoryLimitExceeded
  else if o.exitCode ≠ 0 then Outcome.RuntimeError
  else if normalizeOutput o.stdout = normalizeOutput tc.expected_output then Outcome.Passed
  else Outcome.WrongAnswer

/-- Modelled from the spec: the actual output surfaced per section 4.2,
partial stdout discarded on timeout and the stderr tail surfaced on a
runtime error. -/
def displayedOutput (o : RunOutput) (oc : Outcome) : String :=
  match oc with
  | Outcome.TimeLimitExceeded => ""
  | Outcome.RuntimeError => o.stderr
  | _ => o.stdout

/-- Modelled from the spec: grading of one test case given the behaviour of
the compiled program as a function from stdin to one RunOutput. -/
def gradeOne (behavior : String → RunOutput) (tc : TestCase) : ExecutionResult :=
  let o := behavior tc.input
  let oc := classify tc o
  { passed := decide (oc = Outcome.Passed), input := tc.input,
    expected_output := tc.expected_output, actual_output := displayedOutput o oc,
    execution_time := o.wallTimeMs, memory_usage := o.peakMemoryKb,
    outcome := oc, is_hidden := tc.hidden }

/-- Modelled from the spec: the two request modes of section 6. -/
inductive Mode where
  | run : Mode
  | evaluate : Mode
deriving Repr, DecidableEq

/-- Modelled from the spec: a problem as the harness borrows it, with its
public and hidden test case groups in declared order (section 3). -/
structure SpecProblem where
  publicTests : List TestCase
  hiddenTests : List TestCase
deriving Repr, DecidableEq

/-- Modelled from the spec: test selection of section 4.3, public only in
run mode, public then hidden in evaluate mode. -/
def selectedTests (mode : Mode) (p : SpecProblem) : List TestCase :=
  match mode with
  | Mode.run => p.publicTests
  | Mode.evaluate => p.publicTests ++ p.hiddenTests

/-- Modelled from the spec: the synthetic empty, failed, CompileError-tagged
result emitted for each skipped test case (section 4.3). -/
def syntheticCompileResult (tc : TestCase) : ExecutionResult :=
  { passed := false, input := "", expected_output := "", actual_output := "",
    execution_time := 0, memory_usage := 0,
    outcome := Outcome.CompileError, is_hidden := tc.hidden }

/-- Modelled from the spec: the harness of section 4.3 driving one
submission; returns the ordered result list and the number of Runner
invocations made.  On a compile failure no test runs and one synthetic
result per selected test case is emitted. -/
def runHarness (compileOk : Bool) (behavior : String → RunOutput)
    (mode : Mode) (p : SpecProblem) : List ExecutionResult × ℕ :=
  let tests := selectedTests mode p
  if compileOk then (tests.map (gradeOne behavior), tests.length)
  else (tests.map syntheticCompileResult, 0)

/-- Modelled from the spec: response redaction of section 6, the expected
and actual output fields are emptied when is_hidden and not passed. -/
def redactResult (r : ExecutionResult) : ExecutionResult :=
  if r.is_hidden && !r.passed then
    { r with expected_output := "", actual_output := "" }
  else r

/-- Modelled from the spec: the test_results sequence as returned to the
caller, each result redacted. -/
def responseResults (rs : List ExecutionResult) : List ExecutionResult :=
  rs.map redactResult

/-- The worse of two outcomes under the section 4.3 precedence. -/
def omax (a b : Outcome) : Outcome :=
  if a.severity < b.severity then b else a

/-- Modelled from the spec: the single worst-case outcome of a result
sequence under the section 4.3 precedence, Passed when the list is empty. -/
def worstOutcome (rs : List ExecutionResult) : Outcome :=
  (rs.map (fun r => r.outcome)).foldl omax Outcome.Passed

/-- Modelled from the spec: the submission-level summary of section 3. -/
structure SpecOverallMetrics where
  total_tests : ℕ
  passed_tests : ℕ
  success_rate : ℚ
  average_time : ℚ
  average_memory : ℚ
  status : String
deriving Repr, DecidableEq

/-- Modelled from the spec: the tests that actually executed, excluding those
skipped because of a compile error (section 4.5). -/
def executedResults (rs : List ExecutionResult) : List ExecutionResult :=
  rs.filter (fun r => decide (r.outcome ≠ Outcome.CompileError))

/-- Arithmetic mean of a rational list, 0 on the empty list. -/
def ratMean (xs : List ℚ) : ℚ :=
  if xs.length = 0 then 0 else xs.sum / (xs.length : ℚ)

/-- Modelled from the spec: the Metrics Aggregator of section 4.5, a pure
fold over the ordered result sequence. -/
def aggregate (rs : List ExecutionResult) : SpecOverallMetrics :=
  { total_tests := rs.length
    passed_tests := (rs.filter (fun r => r.passed)).length
    success_rate :=
      if rs.length = 0 then 0
      else ((rs.filter (fun r => r.passed)).length : ℚ) / (rs.length : ℚ)
    average_time := ratMean ((executedResults rs).map (fun r => r.execution_time))
    average_memory := ratMean ((executedResults rs).map (fun r => r.memory_usage))
    status := if rs.all (fun r => r.passed) then "Accepted" else (worstOutcome rs).label }

/-- The severity of the left argument never exceeds that of the worse of
two outcomes. -/
theorem omax_left_le (a b : Outcome) : a.severity ≤ (omax a b).severity := by
  unfold omax
  split
  · exact Nat.le_of_lt (by assumption)
  · exact Nat.le_refl _

/-- The severity of the right argument never exceeds that of the worse of
two outcomes. -/
theorem omax_right_le (a b : Outcome) : b.severity ≤ (omax a b).severity := by
  unfold omax
  split
  · exact Nat.le_refl _
  · exact Nat.le_of_not_lt (by assumption)

/-- The worse of two outcomes is one of the two. -/
theorem omax_cases (a b : Outcome) : omax a b = a ∨ omax a b = b := by
  unfold omax
  split
  · exact Or.inr rfl
  · exact Or.inl rfl

/-- Folding omax never decreases the severity of the accumulator. -/
theorem foldl_omax_init_le (l : List Outcome) (a : Outcome) :
    a.severity ≤ (l.foldl omax a).severity := by
  induction l generalizing a with
  | nil => exact Nat.le_refl _
  | cons b t ih => exact Nat.le_trans (omax_left_le a b) (ih (omax a b))

/-- Every list element has severity at most that of the omax fold. -/
theorem foldl_omax_le (l : List Outcome) (a : Outcome) (x : Outcome) (hx : x ∈ l) :
    x.severity ≤ (l.foldl omax a).severity := by
  induction l generalizing a with
  | nil => cases hx
  | cons b t ih =>
      rcases List.mem_cons.mp hx with h | h
      · subst h
        exact Nat.le_trans (omax_right_le a x) (foldl_omax_init_le t (omax a x))
      · exact ih (omax a b) h

/-- The omax fold is either the initial accumulator or a list element. -/
theorem foldl_omax_mem (l : List Outcome) (a : Outcome) :
    l.foldl omax a = a ∨ l.foldl omax a ∈ l := by
  induction l generalizing a with
  | nil => exact Or.inl rfl
  | cons b t ih =>
      rcases ih (omax a b) with h | h
      · rcases omax_cases a b with hc | hc
        · exact Or.inl (by rw [List.foldl_cons, h, hc])
        · exact Or.inr (by rw [List.foldl_cons, h, hc]; exact List.mem_cons_self b t)
      · exact Or.inr (List.mem_cons_of_mem b h)

/-- An outcome has severity zero exactly when it is Passed. -/
theorem severity_eq_zero_iff (o : Outcome) : o.severity = 0 ↔ o = Outcome.Passed := by
  cases o <;> simp [Outcome.severity]

/-- An outcome is labelled Accepted exactly when it is Passed. -/
theorem label_eq_accepted_iff (o : Outcome) : o.label = "Accepted" ↔ o = Outcome.Passed := by
  cases o <;> simp [Outcome.label]

end Harness

/-- C1: in the redacted response sequence, every result whose hidden flag is
true and whose passed flag is false has an empty expected-output field and an
empty actual-output field. -/
theorem c1_hidden_failed_redacted (rs : List Harness.ExecutionResult)
    (r : Harness.ExecutionResult) (hmem : r ∈ Harness.responseResults rs)
    (hh : r.is_hidden = true) (hp : r.passed = false) :
    r.expected_output = "" ∧ r.actual_output = "" := by
  rcases List.mem_map.mp hmem with ⟨r0, _, hr0⟩
  subst hr0
  rcases Bool.eq_false_or_eq_true (r0.is_hidden && !r0.passed) with hc | hc
  · simp [Harness.redactResult, hc]
  · exfalso
    have hr : Harness.redactResult r0 = r0 := by
      simp [Harness.redactResult, hc]
    rw [hr] at hh hp
    rw [hh, hp] at hc
    simp at hc

/-- A concrete hidden, failed execution result with nonempty outputs. -/
def sampleHiddenFailed : Harness.ExecutionResult :=
  { passed := false, input := "1 2", expected_output := "3", actual_output := "4",
    execution_time := 1, memory_usage := 2,
    outcome := Harness.Outcome.WrongAnswer, is_hidden := true }

/-- Witness for C1 at a concrete hidden failing result. -/
theorem c1_hidden_failed_redacted_witness :
    (Harness.redactResult sampleHiddenFailed).expected_output = "" ∧
    (Harness.redactResult sampleHiddenFailed).actual_output = "" :=
  c1_hidden_failed_redacted [sampleHiddenFailed] (Harness.redactResult sampleHiddenFailed)
    (by simp [Harness.responseResults]) (by decide) (by decide)

/-- C2: under the coherence invariant that a result passes exactly when its
outcome is Passed, the aggregated status is Accepted if and only if every
test passed, and when some test failed the status is the label of the single
worst-case outcome under the precedence CompileError over TimeLimitExceeded
over MemoryLimitExceeded over RuntimeError over WrongAnswer over Passed. -/
theorem c2_status_worst_case (rs : List Harness.ExecutionResult)
    (hcoh : ∀ r ∈ rs, r.passed = true ↔ r.outcome = Harness.Outcome.Passed) :
    ((Harness.aggregate rs).status = "Accepted" ↔ ∀ r ∈ rs, r.passed = true) ∧
    ((∃ r ∈ rs, r.passed = false) →
      (Harness.aggregate rs).status = (Harness.worstOutcome rs).label ∧
      Harness.worstOutcome rs ∈ rs.map (fun r => r.outcome) ∧
      ∀ r ∈ rs, r.outcome.severity ≤ (Harness.worstOutcome rs).severity) := by
  have hstatus : (Harness.aggregate rs).status
      = if rs.all (fun r => r.passed) then "Accepted" else (Harness.worstOutcome rs).label := rfl
  constructor
  · constructor
    · intro hst
      rcases Bool.eq_false_or_eq_true (rs.all (fun r => r.passed)) with hall | hall
      · exact fun r hr => List.all_eq_true.mp hall r hr
      · exfalso
        have hst2 : (Harness.worstOutcome rs).label = "Accepted" := by
          rw [hstatus, hall] at hst
          simpa using hst
        have hw : Harness.worstOutcome rs = Harness.Outcome.Passed :=
          (Harness.label_eq_accepted_iff _).mp hst2
        rcases List.all_eq_false.mp hall with ⟨r, hr, hnp⟩
        have hnotpassed : r.outcome ≠ Harness.Outcome.Passed := by
          intro h
          exact hnp ((hcoh r hr).mpr h)
        have hle : r.outcome.severity ≤ (Harness.worstOutcome rs).severity :=
          Harness.foldl_omax_le _ _ _ (List.mem_map_of_mem _ hr)
        rw [hw] at hle
        exact hnotpassed ((Harness.severity_eq_zero_iff _).mp (Nat.le_zero.mp hle))
    · intro hall
      rw [hstatus, List.all_eq_true.mpr hall]
      simp
  · rintro ⟨r, hr, hpf⟩
    have hall : rs.all (fun r => r.passed) = false :=
      List.all_eq_false.mpr ⟨r, hr, by simp [hpf]⟩
    have hmem : Harness.worstOutcome rs ∈ rs.map (fun r => r.outcome) := by
      rcases Harness.foldl_omax_mem (rs.map (fun r => r.outcome))
          Harness.Outcome.Passed with h | h
      · exfalso
        have hle : r.outcome.severity ≤ (Harness.worstOutcome rs).severity :=
          Harness.foldl_omax_le _ _ _ (List.mem_map_of_mem _ hr)
        have hw : Harness.worstOutcome rs = Harness.Outcome.Passed := h
        rw [hw] at hle
        have hP : r.outcome = Harness.Outcome.Passed :=
          (Harness.severity_eq_zero_iff _).mp (Nat.le_zero.mp hle)
        have hPT : r.passed = true := (hcoh r hr).mpr hP
        rw [hpf] at hPT
        exact Bool.false_ne_true hPT
      · exact h
    refine ⟨?_, hmem, ?_⟩
    · rw [hstatus, hall]
      simp
    · intro x hx
      exact Harness.foldl_omax_le _ _ _ (List.mem_map_of_mem _ hx)

/-- A concrete two-test result list: one passed test and one failed
time-limit-exceeded test. -/
def c2Sample : List Harness.ExecutionResult :=
  [{ passed := true, input := "a", expected_output := "1", actual_output := "1",
     execution_time := 3, memory_usage := 10,
     outcome := Harness.Outcome.Passed, is_hidden := false },
   { passed := false, input := "b", expected_output := "2", actual_output := "",
     execution_time := 2000, memory_usage := 20,
     outcome := Harness.Outcome.TimeLimitExceeded, is_hidden := true }]

/-- Witness for C2 at a concrete mixed result list. -/
theorem c2_status_worst_case_witness :
    ((Harness.aggregate c2Sample).status = "Accepted" ↔ ∀ r ∈ c2Sample, r.passed = true) ∧
    ((∃ r ∈ c2Sample, r.passed = false) →
      (Harness.aggregate c2Sample).status = (Harness.worstOutcome c2Sample).label ∧
      Harness.worstOutcome c2Sample ∈ c2Sample.map (fun r => r.outcome) ∧
      ∀ r ∈ c2Sample, r.outcome.severity ≤ (Harness.worstOutcome c2Sample).severity) :=
  c2_status_worst_case c2Sample (by decide)

/-- The mean of a rational list times its length is its sum, also on the
empty list. -/
theorem ratMean_mul_length (xs : List ℚ) :
    Harness.ratMean xs * (xs.length : ℚ) = xs.sum := by
  by_cases h : xs.length = 0
  · have hx : xs = [] := List.length_eq_zero.mp h
    subst hx
    simp [Harness.ratMean]
  · have hne : (xs.length : ℚ) ≠ 0 := Nat.cast_ne_zero.mpr h
    simp only [Harness.ratMean, if_neg h]
    exact div_mul_cancel₀ _ hne

/-- C3: the aggregated metrics count all results, count the passed results,
have success rate passed over total (0 on the empty sequence), and average
time and memory are the arithmetic means over the executed tests only, where
the executed tests are exactly those not skipped by a compile error. -/
theorem c3_metrics_aggregation (rs : List Harness.ExecutionResult) :
    (Harness.aggregate rs).total_tests = rs.length ∧
    (Harness.aggregate rs).passed_tests = (rs.filter (fun r => r.passed)).length ∧
    (rs = [] → (Harness.aggregate rs).success_rate = 0) ∧
    (Harness.aggregate rs).success_rate * (rs.length : ℚ)
      = ((rs.filter (fun r => r.passed)).length : ℚ) ∧
    (∀ r ∈ Harness.executedResults rs, r.outcome ≠ Harness.Outcome.CompileError) ∧
    (∀ r ∈ rs, r.outcome ≠ Harness.Outcome.CompileError → r ∈ Harness.executedResults rs) ∧
    (Harness.executedResults rs = [] →
      (Harness.aggregate rs).average_time = 0 ∧ (Harness.aggregate rs).average_memory = 0) ∧
    (Harness.aggregate rs).average_time * ((Harness.executedResults rs).length : ℚ)
      = ((Harness.executedResults rs).map (fun r => r.execution_time)).sum ∧
    (Harness.aggregate rs).average_memory * ((Harness.executedResults rs).length : ℚ)
      = ((Harness.executedResults rs).map (fun r => r.memory_usage)).sum := by
  refine ⟨rfl, rfl, ?_, ?_, ?_, ?_, ?_, ?_, ?_⟩
  · intro h
    subst h
    rfl
  · by_cases h : rs.length = 0
    · have hx : rs = [] := List.length_eq_zero.mp h
      subst hx
      simp [Harness.aggregate]
    · have hne : (rs.length : ℚ) ≠ 0 := Nat.cast_ne_zero.mpr h
      show (if rs.length = 0 then (0 : ℚ)
            else ((rs.filter (fun r => r.passed)).length : ℚ) / (rs.length : ℚ))
          * (rs.length : ℚ) = ((rs.filter (fun r => r.passed)).length : ℚ)
      rw [if_neg h]
      exact div_mul_cancel₀ _ hne
  · intro r hr
    have hm := List.mem_filter.mp hr
    simpa using hm.2
  · intro r hr hne
    exact List.mem_filter.mpr ⟨hr, by simpa using hne⟩
  · intro h
    constructor
    · show Harness.ratMean ((Harness.executedResults rs).map (fun r => r.execution_time)) = 0
      rw [h]
      rfl
    · show Harness.ratMean ((Harness.executedResults rs).map (fun r => r.memory_usage)) = 0
      rw [h]
      rfl
  · have h := ratMean_mul_length ((Harness.executedResults rs).map (fun r => r.execution_time))
    simpa [List.length_map] using h
  · have h := ratMean_mul_length ((Harness.executedResults rs).map (fun r => r.memory_usage))
    simpa [List.length_map] using h

/-- A concrete three-test result list: one passed, one wrong answer, one
synthetic compile-error entry. -/
def c3Sample : List Harness.ExecutionResult :=
  [{ passed := true, input := "a", expected_output := "1", actual_output := "1",
     execution_time := 10, memory_usage := 100,
     outcome := Harness.Outcome.Passed, is_hidden := false },
   { passed := false, input := "b", expected_output := "2", actual_output := "5",
     execution_time := 20, memory_usage := 200,
     outcome := Harness.Outcome.WrongAnswer, is_hidden := false },
   { passed := false, input := "", expected_output := "", actual_output := "",
     execution_time := 0, memory_usage := 0,
     outcome := Harness.Outcome.CompileError, is_hidden := false }]

/-- Witness for C3 at a concrete result list. -/
theorem c3_metrics_aggregation_witness :
    (Harness.aggregate c3Sample).success_rate * ((c3Sample.length : ℚ))
        = ((c3Sample.filter (fun r => r.passed)).length : ℚ) ∧
    (Harness.aggregate c3Sample).average_time * ((Harness.executedResults c3Sample).length : ℚ)
        = ((Harness.executedResults c3Sample).map (fun r => r.execution_time)).sum := by
  have h := c3_metrics_aggregation c3Sample
  exact ⟨h.2.2.2.1, h.2.2.2.2.2.2.2.1⟩

/-- C4 counterexample: at a concrete input, neither the run request body nor
the evaluate request body built by the frontend contains a mode field. -/
theorem c4_mode_field_missing :
    ((Frontend.runCodeRequest "print(1)" "python" none).body.map Prod.fst).contains "mode"
        = false ∧
    ((Frontend.evaluateCodeRequest "print(1)" "python" none).body.map Prod.fst).contains "mode"
        = false := by
  decide

/-- C4 amended: every run or evaluate request carries exactly the body fields
code, language and problem_id (the problem id falling back to the string 1),
and the run versus evaluate mode is conveyed by the endpoint path rather than
a body field. -/
theorem c4_request_shape (code lang : String) (p : Option Frontend.Problem) :
    (Frontend.runCodeRequest code lang p).body.map Prod.fst
        = ["code", "language", "problem_id"] ∧
    (Frontend.evaluateCodeRequest code lang p).body.map Prod.fst
        = ["code", "language", "problem_id"] ∧
    (Frontend.runCodeRequest code lang p).body
        = [("code", code), ("language", lang),
           ("problem_id", Frontend.jsOrString (p.map Frontend.Problem.id) "1")] ∧
    (Frontend.evaluateCodeRequest code lang p).body
        = (Frontend.runCodeRequest code lang p).body ∧
    (Frontend.runCodeRequest code lang p).endpoint = "http://localhost:8000/api/code/run" ∧
    (Frontend.evaluateCodeRequest code lang p).endpoint
        = "http://localhost:8000/api/code/evaluate" :=
  ⟨rfl, rfl, rfl, rfl, rfl, rfl⟩

/-- C5: with a compiling submission, run mode grades exactly the public test
cases in declared order and evaluate mode grades the public then the hidden
test cases, each group in declared order, so the result counts are the
public count and the public plus hidden count respectively. -/
theorem c5_mode_selection (b : String → Harness.RunOutput) (p : Harness.SpecProblem) :
    (Harness.runHarness true b Harness.Mode.run p).1
        = p.publicTests.map (Harness.gradeOne b) ∧
    (Harness.runHarness true b Harness.Mode.evaluate p).1
        = p.publicTests.map (Harness.gradeOne b) ++ p.hiddenTests.map (Harness.gradeOne b) ∧
    (Harness.runHarness true b Harness.Mode.run p).1.length = p.publicTests.length ∧
    (Harness.runHarness true b Harness.Mode.evaluate p).1.length
        = p.publicTests.length + p.hiddenTests.length := by
  refine ⟨rfl, ?_, ?_, ?_⟩
  · show (Harness.selectedTests Harness.Mode.evaluate p).map (Harness.gradeOne b) = _
    simp [Harness.selectedTests]
  · show ((Harness.selectedTests Harness.Mode.run p).map (Harness.gradeOne b)).length = _
    simp [Harness.selectedTests]
  · show ((Harness.selectedTests Harness.Mode.evaluate p).map (Harness.gradeOne b)).length = _
    simp [Harness.selectedTests]

/-- The passed flag of a graded result is the decision that its
classification is Passed. -/
theorem gradeOne_passed (b : String → Harness.RunOutput) (tc : Harness.TestCase) :
    (Harness.gradeOne b tc).passed
      = decide (Harness.classify tc (b tc.input) = Harness.Outcome.Passed) := rfl

/-- The outcome of a graded result is its classification. -/
theorem gradeOne_outcome (b : String → Harness.RunOutput) (tc : Harness.TestCase) :
    (Harness.gradeOne b tc).outcome = Harness.classify tc (b tc.input) := rfl

/-- Classification depends only on the stdout, exit code and limit signals of
the run output, never on its timing or memory measurements. -/
theorem classify_congr (tc : Harness.TestCase) (o1 o2 : Harness.RunOutput)
    (hs : o1.stdout = o2.stdout) (he : o1.exitCode = o2.exitCode)
    (ht : o1.timedOut = o2.timedOut) (hm : o1.memExceeded = o2.memExceeded) :
    Harness.classify tc o1 = Harness.classify tc o2 := by
  simp [Harness.classify, hs, he, ht, hm]

/-- C6: two runs of the same submission whose program behaves
deterministically (same stdout, stderr, exit code and limit signals on every
input, timing and memory free to differ between the runs) produce identical
passed flags and identical outcome kinds test by test. -/
theorem c6_grading_deterministic (b1 b2 : String → Harness.RunOutput)
    (hdet : ∀ s, (b1 s).stdout = (b2 s).stdout ∧ (b1 s).stderr = (b2 s).stderr ∧
      (b1 s).exitCode = (b2 s).exitCode ∧ (b1 s).timedOut = (b2 s).timedOut ∧
      (b1 s).memExceeded = (b2 s).memExceeded)
    (compileOk : Bool) (mode : Harness.Mode) (p : Harness.SpecProblem) :
    (Harness.runHarness compileOk b1 mode p).1.map (fun r => r.passed)
        = (Harness.runHarness compileOk b2 mode p).1.map (fun r => r.passed) ∧
    (Harness.runHarness compileOk b1 mode p).1.map (fun r => r.outcome)
        = (Harness.runHarness compileOk b2 mode p).1.map (fun r => r.outcome) := by
  have hcl : ∀ tc : Harness.TestCase,
      Harness.classify tc (b1 tc.input) = Harness.classify tc (b2 tc.input) := by
    intro tc
    rcases hdet tc.input with ⟨hs, _, he, ht, hm⟩
    exact classify_congr tc _ _ hs he ht hm
  cases compileOk with
  | false => exact ⟨rfl, rfl⟩
  | true =>
      constructor
      · show ((Harness.selectedTests mode p).map (Harness.gradeOne b1)).map (fun r => r.passed)
            = ((Harness.selectedTests mode p).map (Harness.gradeOne b2)).map (fun r => r.passed)
        rw [List.map_map, List.map_map]
        have hfun : ((fun r : Harness.ExecutionResult => r.passed) ∘ Harness.gradeOne b1)
            = ((fun r : Harness.ExecutionResult => r.passed) ∘ Harness.gradeOne b2) := by
          funext tc
          show (Harness.gradeOne b1 tc).passed = (Harness.gradeOne b2 tc).passed
          rw [gradeOne_passed, gradeOne_passed, hcl tc]
        rw [hfun]
      · show ((Harness.selectedTests mode p).map (Harness.gradeOne b1)).map (fun r => r.outcome)
            = ((Harness.selectedTests mode p).map (Harness.gradeOne b2)).map (fun r => r.outcome)
        rw [List.map_map, List.map_map]
        have hfun : ((fun r : Harness.ExecutionResult => r.outcome) ∘ Harness.gradeOne b1)
            = ((fun r : Harness.ExecutionResult => r.outcome) ∘ Harness.gradeOne b2) := by
          funext tc
          show (Harness.gradeOne b1 tc).outcome = (Harness.gradeOne b2 tc).outcome
          rw [gradeOne_outcome, gradeOne_outcome, hcl tc]
        rw [hfun]

/-- A concrete program behaviour echoing stdin, first timing oracle. -/
def sampleBehaviorA : String → Harness.RunOutput := fun s =>
  { stdout := s, stderr := "", exitCode := 0, timedOut := false, memExceeded := false,
    wallTimeMs := 5, peakMemoryKb := 100 }

/-- The same observable behaviour with different timing and memory. -/
def sampleBehaviorB : String → Harness.RunOutput := fun s =>
  { stdout := s, stderr := "", exitCode := 0, timedOut := false, memExceeded := false,
    wallTimeMs := 7, peakMemoryKb := 90 }

/-- A concrete problem with one public and one hidden test case. -/
def sampleProblem : Harness.SpecProblem :=
  { publicTests := [{ input := "2", expected_output := "2", hidden := false }],
    hiddenTests := [{ input := "3", expected_output := "3", hidden := true }] }

/-- Witness for C6 at two concrete behaviours differing only in metrics. -/
theorem c6_grading_deterministic_witness :
    (Harness.runHarness true sampleBehaviorA Harness.Mode.evaluate sampleProblem).1.map
        (fun r => r.passed)
      = (Harness.runHarness true sampleBehaviorB Harness.Mode.evaluate sampleProblem).1.map
        (fun r => r.passed) ∧
    (Harness.runHarness true sampleBehaviorA Harness.Mode.evaluate sampleProblem).1.map
        (fun r => r.outcome)
      = (Harness.runHarness true sampleBehaviorB Harness.Mode.evaluate sampleProblem).1.map
        (fun r => r.outcome) :=
  c6_grading_deterministic sampleBehaviorA sampleBehaviorB
    (fun _ => ⟨rfl, rfl, rfl, rfl, rfl⟩) true Harness.Mode.evaluate sampleProblem

/-- C7: when compilation fails the harness makes zero Runner invocations and
returns exactly one synthetic, failed, CompileError-tagged result per test
case selected for the mode, and the aggregated status is Compile Error. -/
theorem c7_compile_error (b : String → Harness.RunOutput) (mode : Harness.Mode)
    (p : Harness.SpecProblem) (hne : Harness.selectedTests mode p ≠ []) :
    (Harness.runHarness false b mode p).2 = 0 ∧
    (Harness.runHarness false b mode p).1
        = (Harness.selectedTests mode p).map Harness.syntheticCompileResult ∧
    (Harness.runHarness false b mode p).1.length = (Harness.selectedTests mode p).length ∧
    (∀ r ∈ (Harness.runHarness false b mode p).1,
        r.outcome = Harness.Outcome.CompileError ∧ r.passed = false) ∧
    (Harness.aggregate (Harness.runHarness false b mode p).1).status = "Compile Error" := by
  have hres : (Harness.runHarness false b mode p).1
      = (Harness.selectedTests mode p).map Harness.syntheticCompileResult := rfl
  have hall : ∀ r ∈ (Harness.runHarness false b mode p).1,
      r.outcome = Harness.Outcome.CompileError ∧ r.passed = false := by
    intro r hr
    rw [hres] at hr
    rcases List.mem_map.mp hr with ⟨tc, _, htc⟩
    subst htc
    exact ⟨rfl, rfl⟩
  refine ⟨rfl, hres, by rw [hres]; simp, hall, ?_⟩
  have hrsne : (Harness.runHarness false b mode p).1 ≠ [] := by
    rw [hres]
    intro hcon
    exact hne (List.map_eq_nil_iff.mp hcon)
  obtain ⟨r0, hr0⟩ := List.exists_mem_of_ne_nil _ hrsne
  have hallfalse : ((Harness.runHarness false b mode p).1).all (fun r => r.passed) = false :=
    List.all_eq_false.mpr ⟨r0, hr0, by simp [(hall r0 hr0).2]⟩
  have hstatus : (Harness.aggregate (Harness.runHarness false b mode p).1).status
      = (Harness.worstOutcome (Harness.runHarness false b mode p).1).label := by
    show (if ((Harness.runHarness false b mode p).1).all (fun r => r.passed) then "Accepted"
          else (Harness.worstOutcome (Harness.runHarness false b mode p).1).label)
        = (Harness.worstOutcome (Harness.runHarness false b mode p).1).label
    rw [hallfalse]
    simp
  rw [hstatus]
  have hworst : Harness.worstOutcome (Harness.runHarness false b mode p).1
      = Harness.Outcome.CompileError := by
    rcases Harness.foldl_omax_mem
        (((Harness.runHarness false b mode p).1).map (fun r => r.outcome))
        Harness.Outcome.Passed with h | h
    · exfalso
      have hle : (r0.outcome).severity
          ≤ (Harness.worstOutcome (Harness.runHarness false b mode p).1).severity :=
        Harness.foldl_omax_le _ _ _ (List.mem_map_of_mem _ hr0)
      have hw : Harness.worstOutcome (Harness.runHarness false b mode p).1
          = Harness.Outcome.Passed := h
      rw [hw, (hall r0 hr0).1] at hle
      simp [Harness.Outcome.severity] at hle
    · rcases List.mem_map.mp h with ⟨r1, hr1, hout⟩
      have hw : Harness.worstOutcome (Harness.runHarness false b mode p).1 = r1.outcome :=
        hout.symm
      rw [hw]
      exact (hall r1 hr1).1
  rw [hworst]
  rfl

/-- Witness for C7 at a concrete problem in evaluate mode. -/
theorem c7_compile_error_witness :
    (Harness.runHarness false sampleBehaviorA Harness.Mode.evaluate sampleProblem).2 = 0 ∧
    (Harness.aggregate
        (Harness.runHarness false sampleBehaviorA Harness.Mode.evaluate sampleProblem).1).status
      = "Compile Error" := by
  have h := c7_compile_error sampleBehaviorA Harness.Mode.evaluate sampleProblem (by decide)
  exact ⟨h.1, h.2.2.2.2⟩

/-- C9: when the run request fails at the transport level, handleRunCode
replaces the result list with one failed entry built from the first example
of the current problem with actual output Error executing code and zero
metrics, and leaves the state unchanged when there is no current problem or
it has no examples. -/
theorem c9_transport_failure (cp : Option Frontend.Problem) (rand : Frontend.DemoRandom)
    (s : Frontend.AppState) :
    (cp = none → Frontend.handleRunCode Frontend.FetchOutcome.failure cp rand s = s) ∧
    (∀ p : Frontend.Problem, cp = some p → p.examples = [] →
      Frontend.handleRunCode Frontend.FetchOutcome.failure cp rand s = s) ∧
    (∀ (p : Frontend.Problem) (ex : Frontend.ProblemExample)
        (rest : List Frontend.ProblemExample), cp = some p → p.examples = ex :: rest →
      Frontend.handleRunCode Frontend.FetchOutcome.failure cp rand s
        = { s with testResults :=
              [{ passed := false, input := ex.input, expectedOutput := ex.output,
                 actualOutput := "Error executing code",
                 executionTime := 0, memoryUsage := 0, is_hidden := false }] }) := by
  refine ⟨?_, ?_, ?_⟩
  · intro h
    subst h
    rfl
  · intro p hcp hex
    subst hcp
    simp [Frontend.handleRunCode, hex]
  · intro p ex rest hcp hex
    subst hcp
    simp [Frontend.handleRunCode, hex]

/-- A concrete problem with one example, for the C9 witness. -/
def c9Problem : Frontend.Problem :=
  { id := "3375", examples := [{ input := "nums = [5,2,5,4,5], k = 2", output := "2" }] }

/-- A concrete random oracle, for the C9 witness. -/
def c9Rand : Frontend.DemoRandom := { passedFlag := true, time := 42, memory := 1000 }

/-- A concrete prior state with one displayed result, for the C9 witness. -/
def c9State : Frontend.AppState :=
  { testResults := [{ passed := true, input := "old", expectedOutput := "old",
                      actualOutput := "old", executionTime := 1, memoryUsage := 1,
                      is_hidden := false }],
    overallMetrics := { totalTests := 1, passedTests := 1, averageTime := 1,
                        averageMemory := 1, status := none } }

/-- Witness for C9 at a concrete problem, oracle and state. -/
theorem c9_transport_failure_witness :
    Frontend.handleRunCode Frontend.FetchOutcome.failure (some c9Problem) c9Rand c9State
      = { c9State with testResults :=
            [{ passed := false, input := "nums = [5,2,5,4,5], k = 2", expectedOutput := "2",
               actualOutput := "Error executing code",
               executionTime := 0, memoryUsage := 0, is_hidden := false }] } :=
  (c9_transport_failure (some c9Problem) c9Rand c9State).2.2 c9Problem
    { input := "nums = [5,2,5,4,5], k = 2", output := "2" } [] rfl rfl

/-- C10: the per-test verdict rendered is Accepted exactly for a passed
result and Wrong Answer exactly for a failed one; no other label occurs at
the per-test level. -/
theorem c10_per_test_verdict (r : Frontend.TestResult) :
    (Frontend.verdictLabel r = "Accepted" ∨ Frontend.verdictLabel r = "Wrong Answer") ∧
    (Frontend.verdictLabel r = "Accepted" ↔ r.passed = true) ∧
    (Frontend.verdictLabel r = "Wrong Answer" ↔ r.passed = false) := by
  cases hr : r.passed with
  | true => simp [Frontend.verdictLabel, hr]
  | false => simp [Frontend.verdictLabel, hr]
